import Mathlib

/-!
Shallow embedding of the type-checking semantic actions of the Lacs PLY
front end (`src/hw#3.py`).

The Python program is a PLY lexer/parser whose grammar actions perform
syntax-directed type checking.  We embed the semantic actions as Lean
functions over ASTs that mirror the grammar productions one-to-one.
Synthesized attributes are `Option String` (a Python action that hits an
error path never assigns `p[0]`, so the attribute is `None`; types in the
source are the plain strings produced by `p_type`).  The two process-wide
dictionaries `found_variables` and `found_procedures` and the stream of
`print` diagnostics are threaded as explicit state.  A Python exception
(the `AttributeError` raised by `p[1].isdigit()` when `p[1]` is the `int`
produced by `t_NUM`) aborts the entire parse and is modelled by `Except`.
-/

namespace Lacs

/-- Mirrors `class Variable` of the source: `{name, type}`, where `type`
is the string attribute synthesized by `p_type`. -/
structure Variable where
  name : String
  type : String
deriving DecidableEq, Repr

/-- Mirrors `class Procedure` of the source. -/
structure Procedure where
  name : String
  return_type : String
  parameters : List Variable
  local_variables : List Variable
deriving DecidableEq, Repr

/-- A Python value that can sit in `p[1]` of the `factor : ID | NUM`
reduction: `t_ID` leaves the lexeme as a `str`, while `t_NUM` runs
`t.value = int(t.value)`, so a NUM token carries a Python `int`. -/
inductive PyVal where
  | str (s : String)
  | int (n : Int)
deriving DecidableEq, Repr

/-- Mirrors the `AttributeError` raised when the source calls the `str`
method `isdigit` on a Python `int`. -/
inductive Crash where
  | attributeError
deriving DecidableEq, Repr

/-- One `print` call of the source, with the data interpolated into the
corresponding f-string.  Constructors whose name starts with `err`
correspond to the diagnostic messages printed on a violation path; the
two `found*` constructors are the informational prints. -/
inductive Msg where
  | foundVariable (name ty : String)
  | foundProcedure (name : String)
  | errDefdefType (exprasTy : Option String) (tyTy : String)
  | errProcAlreadyDefined (name : String)
  | errExpraVarType (name ty : String) (exprTy : Option String)
  | errExpraVarNotFound (name : String)
  | errExprChildExpr (got : Option String)
  | errExprChildTerm (got : Option String)
  | errFactorVarNotFound (v : PyVal)
deriving DecidableEq, Repr

/-- Whether a printed message is an error diagnostic (as opposed to the
informational `Found variable:`/`Found procedure:` prints). -/
def Msg.isError : Msg → Bool
  | .foundVariable _ _ => false
  | .foundProcedure _ => false
  | _ => true

/-- The process-wide mutable state of the source: the two module-level
dictionaries plus the sequence of printed messages. -/
structure St where
  found_variables : List (String × Variable)
  found_procedures : List (String × Procedure)
  output : List Msg
deriving DecidableEq, Repr

/-- The state at interpreter start-up: both dictionaries empty. -/
def initSt : St := { found_variables := [], found_procedures := [], output := [] }

/-- Append one printed message to the state. -/
def pushMsg (s : St) (m : Msg) : St := { s with output := s.output ++ [m] }

/-- Python `dict.get`: the value bound to `k`, if any. -/
def dictGet {α : Type} (d : List (String × α)) (k : String) : Option α :=
  match d with
  | [] => none
  | (k', v) :: rest => if k' = k then some v else dictGet rest k

/-- Python `d[k] = v`: update the binding of `k` in place if present,
otherwise append it. -/
def dictInsert {α : Type} (d : List (String × α)) (k : String) (v : α) :
    List (String × α) :=
  match d with
  | [] => [(k, v)]
  | (k', v') :: rest =>
      if k' = k then (k', v) :: rest else (k', v') :: dictInsert rest k v

/-- Python `k in d`. -/
def dictContains {α : Type} (d : List (String × α)) (k : String) : Bool :=
  (dictGet d k).isSome

/-- Python `str.isdigit` restricted to the ASCII strings the lexer can
produce: true iff the string is non-empty and all characters are digits. -/
def pyStrIsdigit (s : String) : Bool :=
  s.length > 0 && s.data.all Char.isDigit

/-- The method call `p[1].isdigit()` of `p_factor`: defined for a `str`,
but raises `AttributeError` for the `int` carried by a NUM token. -/
def pyIsdigit : PyVal → Except Crash Bool
  | .str s => .ok (pyStrIsdigit s)
  | .int _ => .error .attributeError

/-- The lookup `found_variables.get(p[1])` of `p_factor`: an `int` key
never equals a `str` key, so a NUM value is simply not found. -/
def pyDictGetVal (d : List (String × Variable)) : PyVal → Option Variable
  | .str s => dictGet d s
  | .int _ => none

/-- AST of the `type` production:
`type : INT | LPAREN typesopt RPAREN ARROW type`. -/
inductive TypeAst where
  | int : TypeAst
  | func : List TypeAst → TypeAst → TypeAst
deriving Repr

/-- AST of the `vardef : ID COLON type` production. -/
structure VardefAst where
  name : String
  ty : TypeAst
deriving Repr

/-- Operators of the two `expr` arithmetic alternatives. -/
inductive AddOp where
  | plus | minus
deriving DecidableEq, Repr

/-- Operators of the three `term` arithmetic alternatives. -/
inductive MulOp where
  | star | slash | pct
deriving DecidableEq, Repr

/-- Comparison operators of the `test` production. -/
inductive CmpOp where
  | eq | ne | lt | le | ge | gt
deriving DecidableEq, Repr

mutual

/-- AST of `expr : IF LPAREN test RPAREN LBRACE expras RBRACE ELSE LBRACE
expras RBRACE | term | expr PLUS term | expr MINUS term`. -/
inductive Expr where
  | ifElse : Test → Expras → Expras → Expr
  | binop : AddOp → Expr → Term → Expr
  | ofTerm : Term → Expr

/-- AST of `term : factor | term STAR factor | term SLASH factor
| term PCT factor`. -/
inductive Term where
  | ofFactor : Factor → Term
  | binop : MulOp → Term → Factor → Term

/-- AST of `factor : ID | NUM | LPAREN expr RPAREN
| factor LPAREN argsopt RPAREN`. -/
inductive Factor where
  | id : String → Factor
  | num : Int → Factor
  | paren : Expr → Factor
  | call : Factor → Argsopt → Factor

/-- AST of `argsopt : args | empty`. -/
inductive Argsopt where
  | noArgs : Argsopt
  | someArgs : Args → Argsopt

/-- AST of `args : expr COMMA args | expr`. -/
inductive Args where
  | cons : Expr → Args → Args
  | single : Expr → Args

/-- AST of `test : expr (NE|LT|LE|GE|GT|EQ) expr`. -/
inductive Test where
  | cmp : CmpOp → Expr → Expr → Test

/-- AST of `expras : expra SEMI expras | expra`. -/
inductive Expras where
  | seq : Expra → Expras → Expras
  | last : Expra → Expras

/-- AST of `expra : ID BECOMES expr | expr`. -/
inductive Expra where
  | assign : String → Expr → Expra
  | bare : Expr → Expra

end

mutual

/-- AST of `defdef : DEF ID LPAREN parmsopt RPAREN COLON type BECOMES
LBRACE vardefsopt defdefsopt expras RBRACE`. -/
inductive Defdef where
  | mk : String → List VardefAst → TypeAst → List VardefAst → Defdefsopt →
      Expras → Defdef

/-- AST of `defdefsopt : defdefs | empty`. -/
inductive Defdefsopt where
  | empty : Defdefsopt
  | defs : Defdefs → Defdefsopt

/-- AST of the start symbol `defdefs : defdef defdefs | defdef`. -/
inductive Defdefs where
  | cons : Defdef → Defdefs → Defdefs
  | single : Defdef → Defdefs

end

/-- The semantic action `p_type`: `p[0] = p[1] if len(p) == 2 else p[5]`.
For `INT`, `p[1]` is the lexeme `"Int"`; for the function-type alternative
the reduction keeps only the attribute of the trailing `type` (`p[5]`) and
the `typesopt` parameter-type list (`p[2]`) is discarded. -/
def typeAttr : TypeAst → String
  | .int => "Int"
  | .func _ ret => typeAttr ret

/-- The semantic action `p_var_declaration`: build a `Variable` from the
name and the type attribute, print `Found variable:`, and register it in
`found_variables` unconditionally (the source carries a `TODO` about
checking for an existing definition but performs no check). -/
def checkVardef (v : VardefAst) (s : St) : Variable × St :=
  let variable_obj : Variable := ⟨v.name, typeAttr v.ty⟩
  (variable_obj,
    { s with
        found_variables := dictInsert s.found_variables v.name variable_obj,
        output := s.output ++ [Msg.foundVariable v.name variable_obj.type] })

/-- Reduce a sequence of `vardef`s left to right, as the right-recursive
`parms` and `vardefsopt` productions do, collecting the `Variable`
attributes (`p_parms` / `p_var_opt` build the Python lists). -/
def checkVardefList : List VardefAst → St → List Variable × St
  | [], s => ([], s)
  | v :: rest, s =>
      let (var, s1) := checkVardef v s
      let (vars, s2) := checkVardefList rest s1
      (var :: vars, s2)

/-- The `len(p) == 2` branch of `p_factor`, shared by the `ID` and `NUM`
alternatives.  The source first looks the raw token value up in
`found_variables`, then calls `p[1].isdigit()` — which raises
`AttributeError` when the value is the `int` produced by `t_NUM` —
then returns `"Int"` for an all-digit string, the declared type for a
known variable, and prints `Error in factor: Variable ... not found`
(leaving the attribute `None`) otherwise. -/
def factorAtom (v : PyVal) (s : St) : Except Crash (Option String × St) :=
  let var := pyDictGetVal s.found_variables v
  match pyIsdigit v with
  | .error c => .error c
  | .ok b =>
      if b then .ok (some "Int", s)
      else
        match var with
        | some vr => .ok (some vr.type, s)
        | none => .ok (none, pushMsg s (.errFactorVarNotFound v))

mutual

/-- The semantic action `p_expr`.  `expr : term` copies the child's type.
`expr : expr PLUS term | expr MINUS term` requires both child attributes
to equal `"Int"` (printing an error and leaving the attribute `None`
otherwise) and yields `"Int"`.  The `IF ... ELSE ...` alternative sets
`p[0] = p[6]`, the attribute of the first `expras`; the source performs
no comparison of the two branches and ignores the `test` entirely. -/
def checkExpr : Expr → St → Except Crash (Option String × St)
  | .ofTerm t, s => checkTerm t s
  | .binop _ e t, s =>
      match checkExpr e s with
      | .error c => .error c
      | .ok (child_expr, s1) =>
          match checkTerm t s1 with
          | .error c => .error c
          | .ok (child_term, s2) =>
              if child_expr ≠ some "Int" then
                .ok (none, pushMsg s2 (.errExprChildExpr child_expr))
              else if child_term ≠ some "Int" then
                .ok (none, pushMsg s2 (.errExprChildTerm child_term))
              else .ok (some "Int", s2)
  | .ifElse t a b, s =>
      match checkTest t s with
      | .error c => .error c
      | .ok s1 =>
          match checkExpras a s1 with
          | .error c => .error c
          | .ok (ta, s2) =>
              match checkExpras b s2 with
              | .error c => .error c
              | .ok (_, s3) => .ok (ta, s3)

/-- The semantic action `p_term`.  `term : factor` copies the child's
type.  For `term STAR factor | term SLASH factor | term PCT factor` the
source sets `p[0] = "Int"` without examining the child attributes (the
comment above the line states the operands must be `Int`, but no check
is performed). -/
def checkTerm : Term → St → Except Crash (Option String × St)
  | .ofFactor f, s => checkFactor f s
  | .binop _ t f, s =>
      match checkTerm t s with
      | .error c => .error c
      | .ok (_, s1) =>
          match checkFactor f s1 with
          | .error c => .error c
          | .ok (_, s2) => .ok (some "Int", s2)

/-- The semantic action `p_factor`.  `ID` and `NUM` go through the shared
`len(p) == 2` branch (`factorAtom`); `LPAREN expr RPAREN` copies the
inner type; the call alternative `factor LPAREN argsopt RPAREN` is
`pass  # TODO` in the source, so after the children are reduced the
attribute is left `None` with no diagnostic. -/
def checkFactor : Factor → St → Except Crash (Option String × St)
  | .id x, s => factorAtom (PyVal.str x) s
  | .num n, s => factorAtom (PyVal.int n) s
  | .paren e, s => checkExpr e s
  | .call f a, s =>
      match checkFactor f s with
      | .error c => .error c
      | .ok (_, s1) =>
          match checkArgsopt a s1 with
          | .error c => .error c
          | .ok s2 => .ok (none, s2)

/-- The semantic action `p_argsopt`: the argument expressions have already
been reduced (with their side effects); its attribute (`[]` when empty,
otherwise the `None` produced by `p_args`) is never consumed because the
call branch of `p_factor` is a stub, so only the state is returned. -/
def checkArgsopt : Argsopt → St → Except Crash St
  | .noArgs, s => .ok s
  | .someArgs a, s => checkArgs a s

/-- The semantic action `p_args` is a bare `pass`: each argument `expr`
is reduced (side effects and possible exceptions happen) and the
attribute is left `None`, never consumed. -/
def checkArgs : Args → St → Except Crash St
  | .single e, s =>
      match checkExpr e s with
      | .error c => .error c
      | .ok (_, s1) => .ok s1
  | .cons e rest, s =>
      match checkExpr e s with
      | .error c => .error c
      | .ok (_, s1) => checkArgs rest s1

/-- The semantic action `p_test` is a bare `pass`: the two operand
`expr`s are reduced (side effects and possible exceptions happen), no
check of their types is made and no attribute is produced. -/
def checkTest : Test → St → Except Crash St
  | .cmp _ l r, s =>
      match checkExpr l s with
      | .error c => .error c
      | .ok (_, s1) =>
          match checkExpr r s1 with
          | .error c => .error c
          | .ok (_, s2) => .ok s2

/-- The semantic action `p_expras`: `p[0] = p[3] if len(p) == 4 else
p[1]` — the type of an `expra SEMI expras` is the type of the trailing
`expras`; earlier statements are reduced for their side effects only. -/
def checkExpras : Expras → St → Except Crash (Option String × St)
  | .last e, s => checkExpra e s
  | .seq e rest, s =>
      match checkExpra e s with
      | .error c => .error c
      | .ok (_, s1) => checkExpras rest s1

/-- The semantic action `p_expra`.  For `expra : expr` the type is the
child's.  For `ID BECOMES expr`: look the ID up in `found_variables`;
if absent print `Variable ... not found` and leave the attribute `None`;
if present and the declared type differs from the child attribute print
the type-mismatch message and leave the attribute `None`; otherwise the
attribute is the child `expr`'s type. -/
def checkExpra : Expra → St → Except Crash (Option String × St)
  | .bare e, s => checkExpr e s
  | .assign x e, s =>
      match checkExpr e s with
      | .error c => .error c
      | .ok (child_expr, s1) =>
          match dictGet s1.found_variables x with
          | some var =>
              if some var.type ≠ child_expr then
                .ok (none, pushMsg s1 (.errExpraVarType var.name var.type child_expr))
              else .ok (child_expr, s1)
          | none => .ok (none, pushMsg s1 (.errExpraVarNotFound x))

end

/-- The tail of the semantic action `p_define_expression`, run after all
children of a `defdef` have been reduced.  It receives the name, the
`type` attribute (`child_type = p[7]`), the parameter and local-variable
lists, and the body attribute (`child_expras = p[12]`).  It rejects a
body/annotation mismatch, then a duplicate procedure name, and otherwise
prints `Found procedure:` and registers the new `Procedure`. -/
def defdefAction (procedure_name : String) (procedure_return_type : String)
    (procedure_parameters procedure_local_variables : List Variable)
    (child_expras : Option String) (s : St) : Option Procedure × St :=
  if child_expras ≠ some procedure_return_type then
    (none, pushMsg s (.errDefdefType child_expras procedure_return_type))
  else
    let procedure : Procedure :=
      ⟨procedure_name, procedure_return_type, procedure_parameters,
        procedure_local_variables⟩
    if dictContains s.found_procedures procedure_name then
      (none, pushMsg s (.errProcAlreadyDefined procedure_name))
    else
      (some procedure,
        { s with
            output := s.output ++ [Msg.foundProcedure procedure_name],
            found_procedures :=
              dictInsert s.found_procedures procedure_name procedure })

mutual

/-- Check one `defdef` in parse order: the parameter `vardef`s reduce
first (registering each parameter), then the local `vardef`s, then the
nested `defdefsopt` (whose definitions register their own variables and
procedures in the same flat tables), then the body `expras`, and finally
the `p_define_expression` action itself. -/
def checkDefdef : Defdef → St → Except Crash (Option Procedure × St)
  | .mk name parms retTy vardefs nested body, s =>
      let (parmVars, s1) := checkVardefList parms s
      let (localVars, s2) := checkVardefList vardefs s1
      match checkDefdefsopt nested s2 with
      | .error c => .error c
      | .ok (_, s3) =>
          match checkExpras body s3 with
          | .error c => .error c
          | .ok (child_expras, s4) =>
              .ok (defdefAction name (typeAttr retTy) parmVars localVars
                     child_expras s4)

/-- The semantic action `p_def_opt`: `p[0] = p[1] if p[1] else []`.  A
`defdefs` attribute is a non-empty Python list (possibly containing
`None` entries for rejected definitions), hence truthy; `empty` yields
`[]`. -/
def checkDefdefsopt : Defdefsopt → St → Except Crash (List (Option Procedure) × St)
  | .empty, s => .ok ([], s)
  | .defs ds, s => checkDefdefs ds s

/-- The semantic action `p_declaration` for the start symbol `defdefs`:
each `defdef` is reduced left to right and the attributes are collected
with `[p[1]] + p[2]`; a rejected `defdef` contributes `None` to the
list. -/
def checkDefdefs : Defdefs → St → Except Crash (List (Option Procedure) × St)
  | .single d, s =>
      match checkDefdef d s with
      | .error c => .error c
      | .ok (r, s1) => .ok ([r], s1)
  | .cons d rest, s =>
      match checkDefdef d s with
      | .error c => .error c
      | .ok (r, s1) =>
          match checkDefdefs rest s1 with
          | .error c => .error c
          | .ok (rs, s2) => .ok (r :: rs, s2)

end

/-- Run the whole checker on a program (the start symbol `defdefs`) from
the initial state, as `parser.parse(data)` does. -/
def checkProgram (p : Defdefs) : Except Crash (List (Option Procedure) × St) :=
  checkDefdefs p initSt

/-- A state in which one variable `a : Int` has been declared. -/
def stA : St :=
  { found_variables := [("a", ⟨"a", "Int"⟩)], found_procedures := [], output := [] }

/-- A state in which one variable `f` has been declared with the
annotation `() => Int`, whose `p_type` attribute is the string `"Int"`. -/
def stF : St :=
  { found_variables := [("f", ⟨"f", "Int"⟩)], found_procedures := [], output := [] }

/-- A state with the declarations `f : () => Int` and `a : Int`. -/
def stFA : St :=
  { found_variables := [("f", ⟨"f", "Int"⟩), ("a", ⟨"a", "Int"⟩)],
    found_procedures := [], output := [] }

/-- The expression consisting of the declared identifier `a`. -/
def exprA : Expr := Expr.ofTerm (Term.ofFactor (Factor.id "a"))

/-- The expression consisting of the undeclared identifier `x`. -/
def exprX : Expr := Expr.ofTerm (Term.ofFactor (Factor.id "x"))

/-- The expression consisting of the undeclared identifier `zz`. -/
def exprZ : Expr := Expr.ofTerm (Term.ofFactor (Factor.id "zz"))

/-! ## Theorems -/

/-- Looking up a key immediately after inserting it yields exactly the
inserted value, whatever was bound before (Python `d[k] = v` followed by
`d.get(k)`). -/
theorem dictGet_dictInsert_self {α : Type} (d : List (String × α)) (k : String)
    (v : α) : dictGet (dictInsert d k v) k = some v := by
  induction d with
  | nil => simp [dictInsert, dictGet]
  | cons hd tl ih =>
      obtain ⟨k', v'⟩ := hd
      by_cases h : k' = k
      · simp [dictInsert, dictGet, h]
      · simp [dictInsert, dictGet, h, ih]

/-- C1: the claim states that for every arithmetic expression built with
`+`, `-`, `*`, `/` or `%`, checking fails whenever an operand's type is
not `Int`.  The code violates this for `*`, `/` and `%`: `p_term` sets
the attribute to `"Int"` without examining its children.  Concretely,
with no variables declared, the child term `x` synthesizes no type (its
attribute is `None`, with a lookup error reported), yet `x * y`
synthesizes `"Int"` instead of failing; `x % y` behaves the same. -/
theorem C1_term_star_unchecked :
    (checkTerm (Term.ofFactor (Factor.id "x")) initSt =
      .ok (none, pushMsg initSt (.errFactorVarNotFound (.str "x")))) ∧
    (checkTerm (Term.binop .star (Term.ofFactor (Factor.id "x")) (Factor.id "y"))
        initSt =
      .ok (some "Int",
        { initSt with
            output := [.errFactorVarNotFound (.str "x"),
                       .errFactorVarNotFound (.str "y")] })) ∧
    (checkTerm (Term.binop .pct (Term.ofFactor (Factor.id "x")) (Factor.id "y"))
        initSt =
      .ok (some "Int",
        { initSt with
            output := [.errFactorVarNotFound (.str "x"),
                       .errFactorVarNotFound (.str "y")] })) :=
  ⟨rfl, rfl, rfl⟩

/-- C2: the claim states that a call `f(args)` type-checks iff `f` has a
matching function type, with the function's return type synthesized on
success and mismatches reported.  The call branch of `p_factor` is
`pass  # TODO`: a call never synthesizes a type and never reports an
error.  Concretely, after declaring `f : () => Int` (whose `p_type`
attribute collapses to `"Int"`), the call `f()` — which the claim says
must succeed with type `Int` — synthesizes `None`; and the arity-mismatch
call `f(a)` is neither rejected nor reported (the state is unchanged). -/
theorem C2_call_stub :
    (typeAttr (TypeAst.func [] TypeAst.int) = "Int") ∧
    ( checkVardef ⟨"f", TypeAst.func [] TypeAst.int⟩ initSt =
      (⟨"f", "Int"⟩, { stF with output := [.foundVariable "f" "Int"] })) ∧
    (checkFactor (Factor.id "f") stF = .ok (some "Int", stF)) ∧
    (checkFactor (Factor.call (Factor.id "f") Argsopt.noArgs) stF =
      .ok (none, stF)) ∧
    (checkFactor (Factor.call (Factor.id "f") (Argsopt.someArgs (Args.single exprA)))
        stFA = .ok (none, stFA)) :=
  ⟨rfl, by simp [checkVardef, stF, initSt, dictInsert, typeAttr], rfl, rfl, rfl⟩

/-- C3: the claim states that an if/else expression type-checks iff the
two branch `expras` types are structurally equal, an `Int` branch paired
with a differently-typed branch being rejected.  The if/else branch of
`p_expr` sets `p[0] = p[6]` (the first branch's attribute) without any
comparison.  Concretely, with only `a : Int` declared, the first branch
`a` has type `Int` while the second branch `zz` fails to synthesize any
type (attribute `None`, lookup error reported), yet the whole if/else
expression synthesizes `Int` instead of being rejected. -/
theorem C3_if_branches_unchecked :
    (checkExpras (Expras.last (Expra.bare exprA)) stA = .ok (some "Int", stA)) ∧
    (checkExpras (Expras.last (Expra.bare exprZ)) stA =
      .ok (none, pushMsg stA (.errFactorVarNotFound (.str "zz")))) ∧
    (checkExpr (Expr.ifElse (Test.cmp .eq exprA exprA)
        (Expras.last (Expra.bare exprA)) (Expras.last (Expra.bare exprZ))) stA =
      .ok (some "Int", pushMsg stA (.errFactorVarNotFound (.str "zz")))) :=
  ⟨rfl, rfl, rfl⟩

/-- C4: the claim states that both operands of a comparison `test` must
have type `Int` for checking to succeed, a non-integer operand making the
test fail.  `p_test` is a bare `pass`: no operand check is ever made.
Concretely, the operand `x` is undeclared and synthesizes no type, yet
the test `x < a` produces no rejection (only the operand's own lookup
message), and an if/else gated by that test still succeeds with type
`Int`.  (The remaining part of the claim — that `test` carries no
synthesized type consumed by any further production — does hold:
`p_test` leaves its attribute `None` and `p_expr` ignores `p[3]`.) -/
theorem C4_test_unchecked :
    (checkExpr exprX stA =
      .ok (none, pushMsg stA (.errFactorVarNotFound (.str "x")))) ∧
    (checkTest (Test.cmp .lt exprX exprA) stA =
      .ok (pushMsg stA (.errFactorVarNotFound (.str "x")))) ∧
    (checkExpr (Expr.ifElse (Test.cmp .lt exprX exprA)
        (Expras.last (Expra.bare exprA)) (Expras.last (Expra.bare exprA))) stA =
      .ok (some "Int", pushMsg stA (.errFactorVarNotFound (.str "x")))) :=
  ⟨rfl, rfl, rfl⟩

/-- C5: the claim states that a factor deriving a NUM token always
synthesizes the integer type.  In the code, `t_NUM` converts the lexeme
to a Python `int`, and the shared `len(p) == 2` branch of `p_factor`
calls `p[1].isdigit()` — a `str` method — on that `int`, raising
`AttributeError`.  A factor deriving NUM therefore crashes the whole
parse instead of synthesizing `Int`: the literal `1` crashes, and so does
any program containing it. -/
theorem C5_num_crashes :
    (pyIsdigit (PyVal.int 1) = .error .attributeError) ∧
    (checkFactor (Factor.num 1) initSt = .error .attributeError) ∧
    (checkProgram (Defdefs.single (Defdef.mk "f" [] TypeAst.int [] .empty
        (Expras.last (Expra.bare (Expr.ofTerm (Term.ofFactor (Factor.num 1))))))) =
      .error .attributeError) :=
  ⟨rfl, rfl, rfl⟩

/-- C6: a second `def` whose name is already registered — and whose body
otherwise type-checks, so that the duplicate check is reached — is
rejected by `p_define_expression` with the `already defined` declaration
error, no `Procedure` is produced for it, and the procedure table (hence
the originally registered `Procedure`) is left completely unchanged. -/
theorem C6_duplicate_rejected (name rt : String) (ps ls : List Variable)
    (bodyTy : Option String) (s : St)
    (hdup : dictContains s.found_procedures name = true)
    (hok : bodyTy = some rt) :
    defdefAction name rt ps ls bodyTy s =
      (none, { s with output := s.output ++ [Msg.errProcAlreadyDefined name] }) := by
  subst hok
  simp [defdefAction, hdup, pushMsg]

/-- Witness for C6: with `f` already registered, a second well-typed
`def f` is discarded, the declaration error is printed, and the table
still holds the original registration. -/
theorem C6_witness :
    defdefAction "f" "Int" [] [] (some "Int")
      { found_variables := [],
        found_procedures := [("f", ⟨"f", "Int", [], []⟩)], output := [] } =
      (none,
        { found_variables := [],
          found_procedures := [("f", ⟨"f", "Int", [], []⟩)],
          output := [Msg.errProcAlreadyDefined "f"] }) :=
  C6_duplicate_rejected "f" "Int" [] [] (some "Int") _ (by decide) rfl

/-- C7: for an assignment `ID = expr`, once the child `expr` has reduced
with attribute `te`, `p_expra` fails with the `Variable ... not found`
message when the ID is absent from `found_variables`, fails with the
type-mismatch message when the declared type differs from `te`, and on
success synthesizes exactly the child `expr`'s type. -/
theorem C7_assign_action (x : String) (e : Expr) (te : Option String) (s s1 : St)
    (he : checkExpr e s = .ok (te, s1)) :
    checkExpra (Expra.assign x e) s =
      .ok (match dictGet s1.found_variables x with
           | none => (none, pushMsg s1 (Msg.errExpraVarNotFound x))
           | some var =>
               if some var.type ≠ te then
                 (none, pushMsg s1 (Msg.errExpraVarType var.name var.type te))
               else (te, s1)) := by
  cases hv : dictGet s1.found_variables x with
  | none => simp [checkExpra, he, hv]
  | some var =>
      by_cases h : some var.type = te
      · simp [checkExpra, he, hv, h]
      · simp [checkExpra, he, hv, h]

/-- Witness for C7: assigning the `Int`-typed expression `a` to the
declared variable `a : Int` succeeds and synthesizes `Int`. -/
theorem C7_witness :
    checkExpra (Expra.assign "a" exprA) stA = .ok (some "Int", stA) :=
  C7_assign_action "a" exprA (some "Int") stA stA rfl

/-- C8: for the function-type annotation form `(T1,…,Tn) => T`, the
attribute synthesized by `p_type` is exactly the attribute of the final
return type `T`, independently of the parsed parameter-type list, which
is discarded. -/
theorem C8_type_discards_params (ps : List TypeAst) (ret : TypeAst) :
    typeAttr (TypeAst.func ps ret) = typeAttr ret :=
  rfl

/-- C9: the claim states that whenever a type or lookup violation is
detected inside a definition's body, no `Procedure` is registered for the
enclosing definition.  The code violates this: a violation detected in a
production whose parent performs no check (here `p_term`'s unchecked
`*` branch) does not propagate.  Concretely, in
`def f(): Int = { x * y }` with `x` and `y` undeclared, two lookup
violations are detected and reported, yet the body attribute is `"Int"`,
the annotation matches, and the definition registers `Procedure f`. -/
theorem C9_error_still_registers :
    checkDefdef (Defdef.mk "f" [] TypeAst.int [] .empty
      (Expras.last (Expra.bare (Expr.ofTerm (Term.binop .star
        (Term.ofFactor (Factor.id "x")) (Factor.id "y")))))) initSt =
    .ok (some ⟨"f", "Int", [], []⟩,
      { found_variables := [],
        found_procedures := [("f", ⟨"f", "Int", [], []⟩)],
        output := [.errFactorVarNotFound (.str "x"),
                   .errFactorVarNotFound (.str "y"),
                   .foundProcedure "f"] }) :=
  rfl

/-- C10: `p_var_declaration` registers the declared `Variable` in the
flat global `found_variables` table unconditionally: the equation holds
for every prior state, including one that already binds the same name
(the lookup after insertion yields the new entry, replacing the old one),
and the only message printed is the informational `Found variable:`,
never an error diagnostic. -/
theorem C10_vardef_overwrites (v : VardefAst) (s : St) :
    checkVardef v s =
      (⟨v.name, typeAttr v.ty⟩,
        { s with
            found_variables :=
              dictInsert s.found_variables v.name ⟨v.name, typeAttr v.ty⟩,
            output := s.output ++ [Msg.foundVariable v.name (typeAttr v.ty)] }) ∧
    dictGet (dictInsert s.found_variables v.name ⟨v.name, typeAttr v.ty⟩) v.name =
      some ⟨v.name, typeAttr v.ty⟩ ∧
    Msg.isError (Msg.foundVariable v.name (typeAttr v.ty)) = false :=
  ⟨rfl, dictGet_dictInsert_self _ _ _, rfl⟩

end Lacs
